import Mathlib

set_option maxHeartbeats 1000000
set_option maxRecDepth 4000

/- Shallow embedding of the PREVIS repository (src/previs/instr.py and
src/previs/display.py): per-instrument observability threshold rules for the
VLTI and CHARA interferometers, magnitude/flux conversion, survey
aggregation, and the per-star VLTI diagram logic. -/

namespace Previs

/-- Python exception kinds raised by the embedded code paths. -/
inductive PyErr
  | keyError
  | typeError
  | indexError
  | zeroDivisionError
deriving DecidableEq

/-- Python/numpy double restricted to rational values plus NaN, used for the
magnitude inputs of the threshold functions.  Every magnitude the program
manipulates is a finite double (hence a rational) or NaN. -/
inductive PFloat
  | nan
  | val (q : ℚ)
deriving DecidableEq

/-- IEEE `<=` : any comparison involving NaN is false. -/
def npLe : PFloat → PFloat → Bool
  | .val a, .val b => decide (a ≤ b)
  | _, _ => false

/-- IEEE `<` : any comparison involving NaN is false. -/
def npLt : PFloat → PFloat → Bool
  | .val a, .val b => decide (a < b)
  | _, _ => false

/-- numpy `np.min` over a two-element list: NaN propagates. -/
def np_min2 : PFloat → PFloat → PFloat
  | .val a, .val b => .val (min a b)
  | _, _ => .nan

/-- numpy double for the flux computations of MagToJy: exact reals plus the
IEEE special values NaN and the two infinities. -/
inductive RFloat
  | nan
  | pinf
  | ninf
  | val (x : ℝ)

/-- IEEE division (numpy emits a warning, not an exception, on division by
zero and produces NaN or a signed infinity). -/
noncomputable def rfDiv : RFloat → RFloat → RFloat
  | .nan, _ => .nan
  | _, .nan => .nan
  | .val a, .val b =>
      if b = 0 then (if a = 0 then .nan else if 0 < a then .pinf else .ninf)
      else .val (a / b)
  | .pinf, .val b => if 0 ≤ b then .pinf else .ninf
  | .ninf, .val b => if 0 ≤ b then .ninf else .pinf
  | .val _, .pinf => .val 0
  | .val _, .ninf => .val 0
  | .pinf, .pinf => .nan
  | .pinf, .ninf => .nan
  | .ninf, .pinf => .nan
  | .ninf, .ninf => .nan

/-- IEEE multiplication. -/
noncomputable def rfMul : RFloat → RFloat → RFloat
  | .nan, _ => .nan
  | _, .nan => .nan
  | .val a, .val b => .val (a * b)
  | .val a, .pinf => if a = 0 then .nan else if 0 < a then .pinf else .ninf
  | .val a, .ninf => if a = 0 then .nan else if 0 < a then .ninf else .pinf
  | .pinf, .val b => if b = 0 then .nan else if 0 < b then .pinf else .ninf
  | .ninf, .val b => if b = 0 then .nan else if 0 < b then .ninf else .pinf
  | .pinf, .pinf => .pinf
  | .pinf, .ninf => .ninf
  | .ninf, .pinf => .ninf
  | .ninf, .ninf => .pinf

/-- `10 ** x` on doubles (`10 ** -inf = 0`, `10 ** inf = inf`). -/
noncomputable def rfPow10 : RFloat → RFloat
  | .nan => .nan
  | .pinf => .pinf
  | .ninf => .val 0
  | .val x => .val ((10 : ℝ) ^ x)

/-- `np.log10` : NaN on negative arguments, `-inf` at zero, no exception. -/
noncomputable def rfLog10 : RFloat → RFloat
  | .nan => .nan
  | .pinf => .pinf
  | .ninf => .nan
  | .val x => if x < 0 then .nan else if x = 0 then .ninf else .val (Real.logb 10 x)

/-- The `conv_flux` dictionary of MagToJy (instr.py lines 49-62): band name to
(effective wavelength in micrometers, zero-magnitude flux F0 in Jy). -/
def conv_flux (band : String) : Option (ℚ × ℚ) :=
  if band = "B" then some (11/25, 4260)
  else if band = "V" then some (1389/2500, 3540)
  else if band = "R" then some (16/25, 3080)
  else if band = "I" then some (79/100, 2550)
  else if band = "J" then some (243/200, 1630)
  else if band = "H" then some (827/500, 1050)
  else if band = "K" then some (2179/1000, 655)
  else if band = "L" then some (3547/1000, 276)
  else if band = "M" then some (4769/1000, 160)
  else if band = "N" then some (51/5, 427/10)
  else if band = "Q" then some (2013/100, 97/10)
  else none

/-- MagToJy (instr.py lines 32-73).  Forward (`reverse=False`):
`out = F0 * (10 ** (m / -2.5))`, wrapped in a bare try/except, so any failure
(in particular an unknown band's KeyError) yields NaN.  Reverse
(`reverse=True`): `out = -2.5 * np.log10(m / F0)` with no handler, so an
unknown band raises KeyError. -/
noncomputable def MagToJy (m : RFloat) (band : String) (reverse : Bool) :
    Except PyErr RFloat :=
  if !reverse then
    match conv_flux band with
    | none => .ok .nan
    | some p => .ok (rfMul (.val (p.2 : ℝ)) (rfPow10 (rfDiv m (.val (-(5 : ℝ)/2)))))
  else
    match conv_flux band with
    | none => .error .keyError
    | some p => .ok (rfMul (.val (-(5 : ℝ)/2)) (rfLog10 (rfDiv m (.val (p.2 : ℝ)))))

/-- The MATISSE limit table: telescope class × fringe-tracking mode × band to
an ordered breakpoint list (instr.py `dic_web` / `dic_consortium` shape). -/
structure MTable where
  at_noft_L : List ℚ
  at_noft_M : List ℚ
  at_noft_N : List ℚ
  at_ft_L : List ℚ
  at_ft_M : List ℚ
  at_ft_N : List ℚ
  ut_noft_L : List ℚ
  ut_noft_M : List ℚ
  ut_noft_N : List ℚ
  ut_ft_L : List ℚ
  ut_ft_M : List ℚ
  ut_ft_N : List ℚ
deriving DecidableEq

/-- limit_commissioning_matisse (instr.py lines 150-174): the fixed estimated
performance table. -/
def limit_commissioning_matisse : MTable where
  at_noft_L := [21/5, 9/10, -3/2]
  at_noft_M := [81/25, 1]
  at_noft_N := [-7/20, -11/5]
  at_ft_L := [77/10, 61/10, 21/5]
  at_ft_M := [131/25, 8/5]
  at_ft_N := [8/5, 1/10]
  ut_noft_L := [7, 37/10, 13/10]
  ut_noft_M := [603/100, 383/100]
  ut_noft_N := [27/10, 4/5]
  ut_ft_L := [103/10, 44/5, 69/10]
  ut_ft_M := [5, 5]
  ut_ft_N := [23/5, 16/5]

/-- Shape of every table produced by limit_ESO_matisse_web (instr.py lines
112-138): the scraped lists have fixed lengths 3 (L) and 2 (M, N) for
at/noft, at/ft L and M, and ut/noft, while `at_ft_N` and the whole `ut/ft`
subtree are left empty ("not commissioned"); the cache only ever holds a
table written by that same code. -/
def esoShape (t : MTable) : Prop :=
  t.at_noft_L.length = 3 ∧ t.at_noft_M.length = 2 ∧ t.at_noft_N.length = 2 ∧
  t.at_ft_L.length = 3 ∧ t.at_ft_M.length = 2 ∧ t.at_ft_N = [] ∧
  t.ut_noft_L.length = 3 ∧ t.ut_noft_M.length = 2 ∧ t.ut_noft_N.length = 2 ∧
  t.ut_ft_L = [] ∧ t.ut_ft_M = [] ∧ t.ut_ft_N = []

/-- A table one of the two providers of instr.py can actually supply. -/
def realizable (t : MTable) : Prop :=
  esoShape t ∨ t = limit_commissioning_matisse

/-- Python list indexing: out of range raises IndexError. -/
def pyIndex (l : List ℚ) (i : ℕ) : Except PyErr ℚ :=
  match l.get? i with
  | some x => .ok x
  | none => .error .indexError

/-- Leaf triple for an L-band MATISSE configuration. -/
structure Res3 where
  LR : Bool
  MR : Bool
  HR : Bool
deriving DecidableEq

/-- Leaf pair for an M- or N-band MATISSE configuration. -/
structure Res2 where
  LR : Bool
  HR : Bool
deriving DecidableEq

/-- The three-tier L-band comparison block of matisse_limit (e.g. instr.py
lines 250-266): `mag <= lim[2]` gives all three resolutions,
`lim[2] < mag <= lim[1]` gives LR and MR, `lim[1] < mag <= lim[0]` gives LR
only, otherwise nothing. -/
def tier3code (mag : PFloat) (lim : List ℚ) : Except PyErr Res3 := do
  let b2 ← pyIndex lim 2
  if npLe mag (.val b2) then
    return ⟨true, true, true⟩
  else
    let b1 ← pyIndex lim 1
    if npLt (.val b2) mag && npLe mag (.val b1) then
      return ⟨true, true, false⟩
    else
      let b0 ← pyIndex lim 0
      if npLt (.val b1) mag && npLe mag (.val b0) then
        return ⟨true, false, false⟩
      else
        return ⟨false, false, false⟩

/-- The two-tier M/N-band comparison block of matisse_limit (e.g. instr.py
lines 284-292): `mag <= lim[1]` gives LR and HR, `lim[1] < mag <= lim[0]`
gives LR only, otherwise nothing. -/
def tier2code (mag : PFloat) (lim : List ℚ) : Except PyErr Res2 := do
  let b1 ← pyIndex lim 1
  if npLe mag (.val b1) then
    return ⟨true, true⟩
  else
    let b0 ← pyIndex lim 0
    if npLt (.val b1) mag && npLe mag (.val b0) then
      return ⟨true, false⟩
    else
      return ⟨false, false⟩

/-- instr.py lines 250-266: the UT/ft/L block reads
`dic_matisse['ut']['ft']['L']`, i.e. always the commissioning table,
whatever `dic_limit` holds. -/
def matisse_slot_ut_ft_L (magL : PFloat) (_dic_limit : MTable) : Except PyErr Res3 :=
  tier3code magL limit_commissioning_matisse.ut_ft_L

/-- instr.py lines 268-278: UT/ft/M falls back to the commissioning list when
the chosen list is empty and then only compares against `lim[0]`. -/
def matisse_slot_ut_ft_M (magM : PFloat) (dic_limit : MTable) : Except PyErr Res2 := do
  let lim := dic_limit.ut_ft_M
  let lim := if lim.length = 0 then limit_commissioning_matisse.ut_ft_M else lim
  let b0 ← pyIndex lim 0
  if npLe magM (.val b0) then
    return ⟨true, true⟩
  else
    return ⟨false, false⟩

/-- instr.py lines 280-292: UT/ft/N with empty-list fallback. -/
def matisse_slot_ut_ft_N (magN : PFloat) (dic_limit : MTable) : Except PyErr Res2 :=
  tier2code magN
    (if dic_limit.ut_ft_N.length = 0 then limit_commissioning_matisse.ut_ft_N
     else dic_limit.ut_ft_N)

/-- instr.py lines 296-312: UT/noft/L, no fallback. -/
def matisse_slot_ut_noft_L (magL : PFloat) (dic_limit : MTable) : Except PyErr Res3 :=
  tier3code magL dic_limit.ut_noft_L

/-- instr.py lines 314-323: UT/noft/M, no fallback. -/
def matisse_slot_ut_noft_M (magM : PFloat) (dic_limit : MTable) : Except PyErr Res2 :=
  tier2code magM dic_limit.ut_noft_M

/-- instr.py lines 325-334: UT/noft/N, no fallback. -/
def matisse_slot_ut_noft_N (magN : PFloat) (dic_limit : MTable) : Except PyErr Res2 :=
  tier2code magN dic_limit.ut_noft_N

/-- instr.py lines 337-353: AT/ft/L, no fallback. -/
def matisse_slot_at_ft_L (magL : PFloat) (dic_limit : MTable) : Except PyErr Res3 :=
  tier3code magL dic_limit.at_ft_L

/-- instr.py lines 355-364: AT/ft/M, no fallback. -/
def matisse_slot_at_ft_M (magM : PFloat) (dic_limit : MTable) : Except PyErr Res2 :=
  tier2code magM dic_limit.at_ft_M

/-- instr.py lines 366-378: AT/ft/N with empty-list fallback. -/
def matisse_slot_at_ft_N (magN : PFloat) (dic_limit : MTable) : Except PyErr Res2 :=
  tier2code magN
    (if dic_limit.at_ft_N.length = 0 then limit_commissioning_matisse.at_ft_N
     else dic_limit.at_ft_N)

/-- instr.py lines 381-397: AT/noft/L, no fallback. -/
def matisse_slot_at_noft_L (magL : PFloat) (dic_limit : MTable) : Except PyErr Res3 :=
  tier3code magL dic_limit.at_noft_L

/-- instr.py lines 399-408: AT/noft/M, no fallback. -/
def matisse_slot_at_noft_M (magM : PFloat) (dic_limit : MTable) : Except PyErr Res2 :=
  tier2code magM dic_limit.at_noft_M

/-- instr.py lines 410-419: AT/noft/N, no fallback. -/
def matisse_slot_at_noft_N (magN : PFloat) (dic_limit : MTable) : Except PyErr Res2 :=
  tier2code magN dic_limit.at_noft_N

/-- Observability result of matisse_limit: one leaf group per telescope ×
fringe-tracking × band configuration plus the limK advisory gate. -/
structure MatisseDic where
  UT_ft_L : Res3
  UT_ft_M : Res2
  UT_ft_N : Res2
  UT_noft_L : Res3
  UT_noft_M : Res2
  UT_noft_N : Res2
  AT_ft_L : Res3
  AT_ft_M : Res2
  AT_ft_N : Res2
  AT_noft_L : Res3
  AT_noft_M : Res2
  AT_noft_N : Res2
  limK_UT : Bool
  limK_AT : Bool
deriving DecidableEq

/-- matisse_limit (instr.py lines 212-421).  The source obtains `dic_limit`
from limit_ESO_matisse_web (network or cache, I/O) when `source == 'ESO'` or
from limit_commissioning_matisse otherwise; the table is passed here as the
explicit argument `dic_limit`.  The evaluation order of the configuration
blocks follows the source. -/
def matisse_limit (magL magM magN magK : PFloat) (dic_limit : MTable) :
    Except PyErr MatisseDic := do
  let limK_UT :=
    if npLe magK (.val (15/2)) then true
    else if npLt (.val (15/2)) magK && npLe magK (.val 10) then true
    else false
  let limK_AT :=
    if npLe magK (.val (15/2)) then true
    else if npLt (.val (15/2)) magK && npLe magK (.val 10) then false
    else false
  let utftL ← matisse_slot_ut_ft_L magL dic_limit
  let utftM ← matisse_slot_ut_ft_M magM dic_limit
  let utftN ← matisse_slot_ut_ft_N magN dic_limit
  let utnoftL ← matisse_slot_ut_noft_L magL dic_limit
  let utnoftM ← matisse_slot_ut_noft_M magM dic_limit
  let utnoftN ← matisse_slot_ut_noft_N magN dic_limit
  let atftL ← matisse_slot_at_ft_L magL dic_limit
  let atftM ← matisse_slot_at_ft_M magM dic_limit
  let atftN ← matisse_slot_at_ft_N magN dic_limit
  let atnoftL ← matisse_slot_at_noft_L magL dic_limit
  let atnoftM ← matisse_slot_at_noft_M magM dic_limit
  let atnoftN ← matisse_slot_at_noft_N magN dic_limit
  return ⟨utftL, utftM, utftN, utnoftL, utnoftM, utnoftN,
          atftL, atftM, atftN, atnoftL, atnoftM, atnoftN,
          limK_UT, limK_AT⟩

/-- Observability result of gravity_limit. -/
structure GravityDic where
  V_cond : String
  UT_K_MR : Bool
  UT_K_HR : Bool
  AT_K_MR : Bool
  AT_K_HR : Bool
deriving DecidableEq

/-- gravity_limit (instr.py lines 177-209). -/
def gravity_limit (magV magK : PFloat) : GravityDic :=
  let V_cond :=
    if npLe magV (.val 11) then "AT"
    else if npLt (.val 11) magV && npLe magV (.val 16) then "UT"
    else "TooFaint"
  if npLe (.val (-4)) magK && npLe magK (.val (-1)) then
    ⟨V_cond, false, false, false, true⟩
  else if npLt (.val (-1)) magK && npLe magK (.val 1) then
    ⟨V_cond, false, false, true, true⟩
  else if npLt (.val 1) magK && npLe magK (.val 4) then
    ⟨V_cond, false, true, true, true⟩
  else if npLt (.val 4) magK && npLe magK (.val 8) then
    ⟨V_cond, true, true, true, true⟩
  else if npLt (.val 8) magK && npLe magK (.val 9) then
    ⟨V_cond, true, true, false, false⟩
  else
    ⟨V_cond, false, false, false, false⟩

/-- Observability result of pionier_limit. -/
structure PionierDic where
  H : Bool
deriving DecidableEq

/-- pionier_limit (instr.py lines 424-431); magV is accepted and unused, as
in the source. -/
def pionier_limit (magH _magV : PFloat) : PionierDic :=
  ⟨npLe (.val (-1)) magH && npLe magH (.val 9)⟩

/-- Observability result of chara_limit. -/
structure CharaDic where
  Guiding : Bool
  PAVO_R : Bool
  CLASSIC_K : Bool
  CLASSIC_H : Bool
  CLASSIC_V : Bool
  CLIMB_K : Bool
  MIRC_H : Bool
  MIRC_K : Bool
  MYSTIC_K : Bool
  VEGA_LR : Bool
  VEGA_MR : Bool
  VEGA_HR : Bool
deriving DecidableEq

/-- chara_limit (instr.py lines 434-470). -/
def chara_limit (magK magH magR magV : PFloat) : CharaDic where
  Guiding := npLe (np_min2 magV magR) (.val 10)
  CLASSIC_K := npLe magK (.val (13/2))
  CLASSIC_H := npLe magH (.val 7)
  CLASSIC_V := npLe magV (.val 10)
  CLIMB_K := npLe magK (.val 6)
  PAVO_R := npLe magR (.val 7)
  MIRC_H := npLe magH (.val (13/2))
  MIRC_K := npLe magK (.val 3)
  MYSTIC_K := npLe magK (.val 6)
  VEGA_HR := npLe magV (.val (21/5))
  VEGA_MR := npLe magV (.val (29/5))
  VEGA_LR := npLe magV (.val (36/5))

/- ------------------------------------------------------------------
display.py: survey records, the guide-star logic, count_survey and the
per-star VLTI diagram.
------------------------------------------------------------------ -/

/-- The `Guiding_star` field of a Survey Record: a Python string, a pair of
candidate-identifier lists, or absent (None). -/
inductive GuidingStar
  | strv (s : String)
  | pair (g0 g1 : List String)
  | absent
deriving DecidableEq

/-- The `Gaia_dr2` field: presence flag and distance in kpc. -/
structure GaiaInfo where
  check : Bool
  Dkpc : PFloat
deriving DecidableEq

/-- The `Mag` field: the per-band magnitudes display.py reads. -/
structure MagSet where
  magV : PFloat
  magR : PFloat
  magG : PFloat
  magH : PFloat
  magK : PFloat
  magL : PFloat
  magM : PFloat
  magN : PFloat
deriving DecidableEq

/-- The `Ins` subtree of a Survey Record: one observability result per
instrument family, as assembled by the upstream caller from the four
calculator functions. -/
structure InsTree where
  MATISSE : MatisseDic
  GRAVITY : GravityDic
  PIONIER : PionierDic
  CHARA : CharaDic
deriving DecidableEq

/-- A Survey Record (one star). -/
structure SurveyRecord where
  Name : String
  Simbad : Bool
  SED : Option Unit
  Gaia_dr2 : GaiaInfo
  Guiding_star : GuidingStar
  Obs_VLTI : Bool
  Obs_CHARA : Bool
  Mag : MagSet
  Ins : Option InsTree
deriving DecidableEq

/-- Python 3 semantics of the expression `lst > 0` for a plain list `lst`:
ordering a list against an integer is unsupported and raises TypeError. -/
def pyGtList (_l : List String) (_n : ℤ) : Except PyErr (List String) :=
  .error .typeError

/-- The guide-star classification of plot_VLTI (display.py lines 484-495).
The source tests `if len(data['Guiding_star'][0] > 0):` — the truthiness of
`len` of the elementwise comparison — instead of `len(...) > 0`, so for a
plain candidate list the comparison with `0` raises TypeError. -/
def aff_guide : GuidingStar → Except PyErr String
  | .strv _ => .ok "Science"
  | .pair g0 g1 =>
      (pyGtList g0 0).bind fun cmp =>
        if cmp.length ≠ 0 then .ok "Off axis"
        else if g1.length > 0 then .ok "Off axis*"
        else .ok "X"
  | .absent => .ok "X"

/-- The rendered Gaia badge of plot_VLTI (display.py lines 478-481). -/
inductive GaiaText
  | dist (d : PFloat)
  | not_in_gaia
deriving DecidableEq

/-- The data-dependent content of the figure plot_VLTI draws: the guide-star
badge, its colour, the Gaia badge, the star-name circle colour and the
observability marker colours (each instrument leaf AND-ed with the VLTI site
flag, display.py lines 615-650). -/
structure FigVLTI where
  aff : String
  c_guid : String
  gaia : GaiaText
  name_circle : Bool
  grav_AT_MR : Bool
  grav_AT_HR : Bool
  grav_UT_MR : Bool
  grav_UT_HR : Bool
  pionier_H : Bool
deriving DecidableEq

/-- plot_VLTI (display.py lines 462-693).  Returns the list of printed
console lines and the figure (None when the star has no Simbad cross-match).
Layout-only drawing calls are not modelled; the data-dependent parts are. -/
def plot_VLTI (data : SurveyRecord) : Except PyErr (List String × Option FigVLTI) :=
  match data.Ins with
  | none => .ok (["## Error: " ++ data.Name ++ " not in Simbad!"], none)
  | some ins =>
      let gaia := if data.Gaia_dr2.check then GaiaText.dist data.Gaia_dr2.Dkpc
                  else GaiaText.not_in_gaia
      (aff_guide data.Guiding_star).bind fun aff =>
        let c_guid :=
          if aff = "X" then "#ed929d"
          else if aff = "Science" then "#8ee38e"
          else "#fbe570"
        .ok ([], some
          { aff := aff
            c_guid := c_guid
            gaia := gaia
            name_circle := data.Obs_VLTI
            grav_AT_MR := ins.GRAVITY.AT_K_MR && data.Obs_VLTI
            grav_AT_HR := ins.GRAVITY.AT_K_HR && data.Obs_VLTI
            grav_UT_MR := ins.GRAVITY.UT_K_MR && data.Obs_VLTI
            grav_UT_HR := ins.GRAVITY.UT_K_HR && data.Obs_VLTI
            pionier_H := ins.PIONIER.H && data.Obs_VLTI })

/-- The guide-availability boolean of count_survey (display.py lines
176-184): true for the literal string "Science star" or when either
candidate list is non-empty. -/
def guid_of : GuidingStar → Bool
  | .pair g0 g1 => decide (g0.length > 0) || decide (g1.length > 0)
  | .strv s => s == "Science star"
  | .absent => false

/-- Telescope class axis. -/
inductive Tel
  | AT
  | UT
deriving DecidableEq

/-- Fringe-tracking axis. -/
inductive FtMode
  | noft
  | ftrack
deriving DecidableEq

/-- The two bands of the MATISSE count buckets. -/
inductive BandLN
  | L
  | N
deriving DecidableEq

/-- The two resolutions of the MATISSE count buckets. -/
inductive ResLH
  | LR
  | HR
deriving DecidableEq

/-- The two resolutions of the GRAVITY count buckets. -/
inductive ResMH
  | MR
  | HR
deriving DecidableEq

/-- CLASSIC bucket bands. -/
inductive BandVHK
  | V
  | H
  | K
deriving DecidableEq

/-- MIRC bucket bands. -/
inductive BandHK
  | H
  | K
deriving DecidableEq

/-- VEGA bucket resolutions (the dictionary has all three keys). -/
inductive ResLMH
  | LR
  | MR
  | HR
deriving DecidableEq

/-- The key paths of the count dictionary `dic` built by count_survey
(display.py lines 152-171). -/
inductive Bucket
  | matisse (tel : Tel) (mode : FtMode) (band : BandLN) (res : ResLH)
  | gravity (tel : Tel) (res : ResMH)
  | pionier
  | pavo
  | classic (band : BandVHK)
  | climb
  | mystic
  | mirc (band : BandHK)
  | vega (res : ResLMH)
deriving DecidableEq

/-- Leaf selector on the MATISSE subtree for the bucket axes. -/
def matisse_leaf (m : MatisseDic) : Tel → FtMode → BandLN → ResLH → Bool
  | .AT, .noft, .L, .LR => m.AT_noft_L.LR
  | .AT, .noft, .L, .HR => m.AT_noft_L.HR
  | .AT, .noft, .N, .LR => m.AT_noft_N.LR
  | .AT, .noft, .N, .HR => m.AT_noft_N.HR
  | .AT, .ftrack, .L, .LR => m.AT_ft_L.LR
  | .AT, .ftrack, .L, .HR => m.AT_ft_L.HR
  | .AT, .ftrack, .N, .LR => m.AT_ft_N.LR
  | .AT, .ftrack, .N, .HR => m.AT_ft_N.HR
  | .UT, .noft, .L, .LR => m.UT_noft_L.LR
  | .UT, .noft, .L, .HR => m.UT_noft_L.HR
  | .UT, .noft, .N, .LR => m.UT_noft_N.LR
  | .UT, .noft, .N, .HR => m.UT_noft_N.HR
  | .UT, .ftrack, .L, .LR => m.UT_ft_L.LR
  | .UT, .ftrack, .L, .HR => m.UT_ft_L.HR
  | .UT, .ftrack, .N, .LR => m.UT_ft_N.LR
  | .UT, .ftrack, .N, .HR => m.UT_ft_N.HR

/-- Leaf selector on the GRAVITY subtree for the bucket axes. -/
def gravity_leaf (g : GravityDic) : Tel → ResMH → Bool
  | .AT, .MR => g.AT_K_MR
  | .AT, .HR => g.AT_K_HR
  | .UT, .MR => g.UT_K_MR
  | .UT, .HR => g.UT_K_HR

/-- CLASSIC leaf selector. -/
def classic_leaf (c : CharaDic) : BandVHK → Bool
  | .V => c.CLASSIC_V
  | .H => c.CLASSIC_H
  | .K => c.CLASSIC_K

/-- MIRC leaf selector. -/
def mirc_leaf (c : CharaDic) : BandHK → Bool
  | .H => c.MIRC_H
  | .K => c.MIRC_K

/-- The per-bucket append condition of the count_survey main loop
(display.py lines 174-221): VLTI-suite buckets (MATISSE via
add_vs_mode_matisse, GRAVITY via add_vs_mode_gravity, PIONIER) require
`cond_VLTI and cond_guid and cond_ins`; CHARA-suite buckets require
`cond_CHARA and cond_ins and cond_tilt` (no guide check); the VEGA loop only
covers LR and HR, so the MR bucket is never appended to. -/
def bucket_cond (r : SurveyRecord) (ins : InsTree) : Bucket → Bool
  | .matisse t f b res => r.Obs_VLTI && guid_of r.Guiding_star && matisse_leaf ins.MATISSE t f b res
  | .gravity t res => r.Obs_VLTI && guid_of r.Guiding_star && gravity_leaf ins.GRAVITY t res
  | .pionier => r.Obs_VLTI && guid_of r.Guiding_star && ins.PIONIER.H
  | .mirc b => r.Obs_CHARA && mirc_leaf ins.CHARA b && ins.CHARA.Guiding
  | .vega .LR => r.Obs_CHARA && ins.CHARA.VEGA_LR && ins.CHARA.Guiding
  | .vega .HR => r.Obs_CHARA && ins.CHARA.VEGA_HR && ins.CHARA.Guiding
  | .vega .MR => false
  | .classic b => r.Obs_CHARA && classic_leaf ins.CHARA b && ins.CHARA.Guiding
  | .pavo => r.Obs_CHARA && ins.CHARA.PAVO_R && ins.CHARA.Guiding
  | .mystic => r.Obs_CHARA && ins.CHARA.MYSTIC_K && ins.CHARA.Guiding
  | .climb => r.Obs_CHARA && ins.CHARA.CLIMB_K && ins.CHARA.Guiding

/-- Conditional append, the effect of a guarded `.append(star)`. -/
def condApp (cond : Bool) (l : List String) (s : String) : List String :=
  if cond then l ++ [s] else l

/-- One iteration of the count_survey main loop for one star.  A
Simbad-matched star with absent `Ins` raises TypeError when the source reads
`survey[star]['Ins']['CHARA']['Guiding']` (display.py line 189); a
non-matched star goes to `list_no_simbad`. -/
def count_step (star : String) (r : SurveyRecord)
    (acc : (Bucket → List String) × List String) :
    Except PyErr ((Bucket → List String) × List String) :=
  if r.Simbad then
    match r.Ins with
    | none => .error .typeError
    | some ins =>
        .ok (fun b => condApp (bucket_cond r ins b) (acc.1 b) star, acc.2)
  else
    .ok (acc.1, acc.2 ++ [star])

/-- The count_survey main loop over the stars in survey order. -/
def count_fold :
    List (String × SurveyRecord) → (Bucket → List String) × List String →
    Except PyErr ((Bucket → List String) × List String)
  | [], acc => .ok acc
  | (s, r) :: rest, acc => (count_step s r acc).bind (count_fold rest)

/-- Loop body of the summary pass of count_survey (display.py lines
139-145): a Simbad-matched star with SED present bumps the VLTI and CHARA
counters according to its site-observability flags. -/
def count_incr (acc : ℕ × ℕ) (p : String × SurveyRecord) : ℕ × ℕ :=
  if p.2.Simbad then
    if p.2.SED.isSome then
      ((if p.2.Obs_VLTI then acc.1 + 1 else acc.1),
       (if p.2.Obs_CHARA then acc.2 + 1 else acc.2))
    else acc
  else acc

/-- The summary pass of count_survey (display.py lines 138-145): counts of
Simbad-matched, SED-present, site-observable stars. -/
def survey_counts (survey : List (String × SurveyRecord)) : ℕ × ℕ :=
  survey.foldl count_incr (0, 0)

/-- Python float division with a natural denominator: raises
ZeroDivisionError on zero. -/
def pyDiv (a : ℚ) (n : ℕ) : Except PyErr ℚ :=
  if n = 0 then .error .zeroDivisionError else .ok (a / n)

/-- The printed survey summary (display.py lines 147-150): star count, site
counts and the two percentages `100*float(n)/n_star`. -/
structure CountSummary where
  n_star : ℕ
  n_vlti : ℕ
  n_chara : ℕ
  pct_vlti : ℚ
  pct_chara : ℚ
deriving DecidableEq

/-- The summary computation of count_survey, performed (and printed) before
the bucket loop; on an empty survey the percentage division raises
ZeroDivisionError. -/
def survey_summary (survey : List (String × SurveyRecord)) :
    Except PyErr CountSummary := do
  let n_star := survey.length
  let nv := (survey_counts survey).1
  let nc := (survey_counts survey).2
  let pv ← pyDiv (100 * nv) n_star
  let pc ← pyDiv (100 * nc) n_star
  return ⟨n_star, nv, nc, pv, pc⟩

/-- count_survey (display.py lines 133-225): summary pass, then the bucket
dictionary (represented as a total function from key paths) and the
unmatched-star list. -/
def count_survey (survey : List (String × SurveyRecord)) :
    Except PyErr (CountSummary × (Bucket → List String) × List String) := do
  let summary ← survey_summary survey
  let (dic, no_simbad) ← count_fold survey (fun _ => [], [])
  return (summary, dic, no_simbad)

/- ------------------------------------------------------------------
Spec-side definitions, for the refinement claims.
------------------------------------------------------------------ -/

/-- The breakpoint list the spec prescribes for a configuration slot: the
chosen table's list, falling back to the commissioning table's same slot
whenever the chosen list is empty (spec section 4.3). -/
def effList (chosen fb : List ℚ) : List ℚ :=
  if chosen.length = 0 then fb else chosen

/-- Effective list of one slot, selected by a projection. -/
def effSlot (t : MTable) (sel : MTable → List ℚ) : List ℚ :=
  effList (sel t) (sel limit_commissioning_matisse)

/-- The spec's three-tier L-band rule over breakpoints `[b0, b1, b2]`
(spec section 4.3). -/
def tier3_rule (mag : PFloat) (b0 b1 b2 : ℚ) : Res3 :=
  if npLe mag (.val b2) then ⟨true, true, true⟩
  else if npLt (.val b2) mag && npLe mag (.val b1) then ⟨true, true, false⟩
  else if npLt (.val b1) mag && npLe mag (.val b0) then ⟨true, false, false⟩
  else ⟨false, false, false⟩

/-- The spec's two-tier M/N-band rule over breakpoints `[b0, b1]`
(spec section 4.3): `mag <= b1` gives both, `b1 < mag <= b0` gives LR only,
otherwise neither. -/
def tier2_rule (mag : PFloat) (b0 b1 : ℚ) : Res2 :=
  if npLe mag (.val b1) then ⟨true, true⟩
  else if npLt (.val b1) mag && npLe mag (.val b0) then ⟨true, false⟩
  else ⟨false, false⟩

/-- Modelled from the spec (section 4.3): MATISSE observability where every
configuration slot compares against the chosen table's breakpoint list,
falling back to the commissioning table's same slot exactly when the chosen
list is empty; L-band slots use the 3-tier block and M/N-band slots the
2-tier block.  To be compared with `matisse_limit` (the code). -/
def matisse_limit_spec (magL magM magN magK : PFloat) (t : MTable) :
    Except PyErr MatisseDic := do
  let c := limit_commissioning_matisse
  let limK_UT :=
    if npLe magK (.val (15/2)) then true
    else if npLt (.val (15/2)) magK && npLe magK (.val 10) then true
    else false
  let limK_AT :=
    if npLe magK (.val (15/2)) then true
    else if npLt (.val (15/2)) magK && npLe magK (.val 10) then false
    else false
  let utftL ← tier3code magL (effList t.ut_ft_L c.ut_ft_L)
  let utftM ← tier2code magM (effList t.ut_ft_M c.ut_ft_M)
  let utftN ← tier2code magN (effList t.ut_ft_N c.ut_ft_N)
  let utnoftL ← tier3code magL (effList t.ut_noft_L c.ut_noft_L)
  let utnoftM ← tier2code magM (effList t.ut_noft_M c.ut_noft_M)
  let utnoftN ← tier2code magN (effList t.ut_noft_N c.ut_noft_N)
  let atftL ← tier3code magL (effList t.at_ft_L c.at_ft_L)
  let atftM ← tier2code magM (effList t.at_ft_M c.at_ft_M)
  let atftN ← tier2code magN (effList t.at_ft_N c.at_ft_N)
  let atnoftL ← tier3code magL (effList t.at_noft_L c.at_noft_L)
  let atnoftM ← tier2code magM (effList t.at_noft_M c.at_noft_M)
  let atnoftN ← tier2code magN (effList t.at_noft_N c.at_noft_N)
  return ⟨utftL, utftM, utftN, utnoftL, utnoftM, utnoftN,
          atftL, atftM, atftN, atnoftL, atnoftM, atnoftN,
          limK_UT, limK_AT⟩

/-- The observability values matisse_limit computes on a realizable table:
every slot evaluated by the spec's tier rule on the slot's effective list. -/
def ruleDic (mL mM mN mK : PFloat) (t : MTable) : MatisseDic where
  UT_ft_L :=
    tier3_rule mL ((effSlot t (fun x => x.ut_ft_L)).getD 0 0)
      ((effSlot t (fun x => x.ut_ft_L)).getD 1 0)
      ((effSlot t (fun x => x.ut_ft_L)).getD 2 0)
  UT_ft_M :=
    tier2_rule mM ((effSlot t (fun x => x.ut_ft_M)).getD 0 0)
      ((effSlot t (fun x => x.ut_ft_M)).getD 1 0)
  UT_ft_N :=
    tier2_rule mN ((effSlot t (fun x => x.ut_ft_N)).getD 0 0)
      ((effSlot t (fun x => x.ut_ft_N)).getD 1 0)
  UT_noft_L :=
    tier3_rule mL ((effSlot t (fun x => x.ut_noft_L)).getD 0 0)
      ((effSlot t (fun x => x.ut_noft_L)).getD 1 0)
      ((effSlot t (fun x => x.ut_noft_L)).getD 2 0)
  UT_noft_M :=
    tier2_rule mM ((effSlot t (fun x => x.ut_noft_M)).getD 0 0)
      ((effSlot t (fun x => x.ut_noft_M)).getD 1 0)
  UT_noft_N :=
    tier2_rule mN ((effSlot t (fun x => x.ut_noft_N)).getD 0 0)
      ((effSlot t (fun x => x.ut_noft_N)).getD 1 0)
  AT_ft_L :=
    tier3_rule mL ((effSlot t (fun x => x.at_ft_L)).getD 0 0)
      ((effSlot t (fun x => x.at_ft_L)).getD 1 0)
      ((effSlot t (fun x => x.at_ft_L)).getD 2 0)
  AT_ft_M :=
    tier2_rule mM ((effSlot t (fun x => x.at_ft_M)).getD 0 0)
      ((effSlot t (fun x => x.at_ft_M)).getD 1 0)
  AT_ft_N :=
    tier2_rule mN ((effSlot t (fun x => x.at_ft_N)).getD 0 0)
      ((effSlot t (fun x => x.at_ft_N)).getD 1 0)
  AT_noft_L :=
    tier3_rule mL ((effSlot t (fun x => x.at_noft_L)).getD 0 0)
      ((effSlot t (fun x => x.at_noft_L)).getD 1 0)
      ((effSlot t (fun x => x.at_noft_L)).getD 2 0)
  AT_noft_M :=
    tier2_rule mM ((effSlot t (fun x => x.at_noft_M)).getD 0 0)
      ((effSlot t (fun x => x.at_noft_M)).getD 1 0)
  AT_noft_N :=
    tier2_rule mN ((effSlot t (fun x => x.at_noft_N)).getD 0 0)
      ((effSlot t (fun x => x.at_noft_N)).getD 1 0)
  limK_UT :=
    if npLe mK (.val (15/2)) then true
    else if npLt (.val (15/2)) mK && npLe mK (.val 10) then true
    else false
  limK_AT :=
    if npLe mK (.val (15/2)) then true
    else if npLt (.val (15/2)) mK && npLe mK (.val 10) then false
    else false

/-- The amended per-bucket aggregation condition, in the spec's vocabulary:
VLTI-suite buckets require the VLTI site flag, guide availability and the
instrument leaf; CHARA-suite buckets require the CHARA site flag, the
instrument leaf and the tip-tilt Guiding flag (guide availability is not
consulted); VEGA's MR bucket is never populated. -/
def bucket_claim (r : SurveyRecord) (ins : InsTree) : Bucket → Prop
  | .matisse t f b res =>
      r.Obs_VLTI = true ∧ guid_of r.Guiding_star = true ∧
        matisse_leaf ins.MATISSE t f b res = true
  | .gravity t res =>
      r.Obs_VLTI = true ∧ guid_of r.Guiding_star = true ∧
        gravity_leaf ins.GRAVITY t res = true
  | .pionier =>
      r.Obs_VLTI = true ∧ guid_of r.Guiding_star = true ∧ ins.PIONIER.H = true
  | .pavo =>
      r.Obs_CHARA = true ∧ ins.CHARA.PAVO_R = true ∧ ins.CHARA.Guiding = true
  | .classic b =>
      r.Obs_CHARA = true ∧ classic_leaf ins.CHARA b = true ∧ ins.CHARA.Guiding = true
  | .climb =>
      r.Obs_CHARA = true ∧ ins.CHARA.CLIMB_K = true ∧ ins.CHARA.Guiding = true
  | .mystic =>
      r.Obs_CHARA = true ∧ ins.CHARA.MYSTIC_K = true ∧ ins.CHARA.Guiding = true
  | .mirc b =>
      r.Obs_CHARA = true ∧ mirc_leaf ins.CHARA b = true ∧ ins.CHARA.Guiding = true
  | .vega .LR =>
      r.Obs_CHARA = true ∧ ins.CHARA.VEGA_LR = true ∧ ins.CHARA.Guiding = true
  | .vega .MR => False
  | .vega .HR =>
      r.Obs_CHARA = true ∧ ins.CHARA.VEGA_HR = true ∧ ins.CHARA.Guiding = true

/- ------------------------------------------------------------------
Concrete fixtures used to instantiate the theorems.
------------------------------------------------------------------ -/

/-- A magnitude set with every band absent (NaN). -/
def magNan : MagSet :=
  ⟨.nan, .nan, .nan, .nan, .nan, .nan, .nan, .nan⟩

/-- An all-false MATISSE observability subtree. -/
def matisseF : MatisseDic :=
  ⟨⟨false, false, false⟩, ⟨false, false⟩, ⟨false, false⟩,
   ⟨false, false, false⟩, ⟨false, false⟩, ⟨false, false⟩,
   ⟨false, false, false⟩, ⟨false, false⟩, ⟨false, false⟩,
   ⟨false, false, false⟩, ⟨false, false⟩, ⟨false, false⟩,
   false, false⟩

/-- Instrument tree of a CHARA-only star: CLIMB observable, tip-tilt
guiding available, everything else false. -/
def insA : InsTree where
  MATISSE := matisseF
  GRAVITY := ⟨"TooFaint", false, false, false, false⟩
  PIONIER := ⟨false⟩
  CHARA := ⟨true, false, false, false, false, true, false, false, false,
            false, false, false⟩

/-- A Simbad-matched star, CHARA-observable with working tip-tilt and CLIMB
leaf, but with an empty pair of guide-star candidate lists (guide
availability false) and not VLTI-observable. -/
def recA : SurveyRecord where
  Name := "A"
  Simbad := true
  SED := some ()
  Gaia_dr2 := ⟨false, .nan⟩
  Guiding_star := .pair [] []
  Obs_VLTI := false
  Obs_CHARA := true
  Mag := magNan
  Ins := some insA

/-- One-star survey around recA. -/
def surveyA : List (String × SurveyRecord) := [("A", recA)]

/-- Instrument tree of a VLTI star: PIONIER observable, all else false. -/
def insW : InsTree where
  MATISSE := matisseF
  GRAVITY := ⟨"AT", false, false, false, false⟩
  PIONIER := ⟨true⟩
  CHARA := ⟨false, false, false, false, false, false, false, false, false,
            false, false, false⟩

/-- A Simbad-matched, VLTI-observable science star with PIONIER leaf true. -/
def recW : SurveyRecord where
  Name := "W"
  Simbad := true
  SED := some ()
  Gaia_dr2 := ⟨true, .val 2⟩
  Guiding_star := .strv "Science star"
  Obs_VLTI := true
  Obs_CHARA := false
  Mag := magNan
  Ins := some insW

/-- One-star survey around recW. -/
def surveyW : List (String × SurveyRecord) := [("W", recW)]

/-- A star with no Simbad cross-match (absent Ins). -/
def recB : SurveyRecord where
  Name := "B"
  Simbad := false
  SED := none
  Gaia_dr2 := ⟨false, .nan⟩
  Guiding_star := .absent
  Obs_VLTI := false
  Obs_CHARA := false
  Mag := magNan
  Ins := none

/-- A Simbad-matched star whose Guiding_star is a pair of candidate lists
with a non-empty first list. -/
def recC : SurveyRecord where
  Name := "C"
  Simbad := true
  SED := some ()
  Gaia_dr2 := ⟨false, .nan⟩
  Guiding_star := .pair ["GSC 04822-00679"] []
  Obs_VLTI := true
  Obs_CHARA := false
  Mag := magNan
  Ins := some insW

/-- Bucket-membership test on the result of count_survey (false when
count_survey raises). -/
def inBucket (survey : List (String × SurveyRecord)) (b : Bucket)
    (x : String) : Bool :=
  match count_survey survey with
  | .ok (_, dic, _) => (dic b).contains x
  | .error _ => false

/- ------------------------------------------------------------------
Helper lemmas.
------------------------------------------------------------------ -/

@[simp] lemma npLe_nan_left (x : PFloat) : npLe .nan x = false := by
  cases x <;> rfl

@[simp] lemma npLe_nan_right (x : PFloat) : npLe x .nan = false := by
  cases x <;> rfl

@[simp] lemma npLt_nan_left (x : PFloat) : npLt .nan x = false := by
  cases x <;> rfl

@[simp] lemma npLt_nan_right (x : PFloat) : npLt x .nan = false := by
  cases x <;> rfl

@[simp] lemma np_min2_nan_left (x : PFloat) : np_min2 .nan x = .nan := by
  cases x <;> rfl

@[simp] lemma np_min2_nan_right (x : PFloat) : np_min2 x .nan = .nan := by
  cases x <;> rfl

lemma npLe_val_val (a b : ℚ) : npLe (.val a) (.val b) = decide (a ≤ b) := rfl

lemma tier3code_triple (mag : PFloat) (a b c : ℚ) :
    tier3code mag [a, b, c] = .ok (tier3_rule mag a b c) := by
  cases h1 : npLe mag (.val c) <;>
    cases h2 : npLt (.val c) mag && npLe mag (.val b) <;>
      cases h3 : npLt (.val b) mag && npLe mag (.val a) <;>
        simp [tier3code, tier3_rule, pyIndex, h1, h2, h3, Bind.bind, Except.bind,
          Pure.pure, Except.pure]

lemma tier2code_pair (mag : PFloat) (a b : ℚ) :
    tier2code mag [a, b] = .ok (tier2_rule mag a b) := by
  cases h1 : npLe mag (.val b) <;>
    cases h2 : npLt (.val b) mag && npLe mag (.val a) <;>
      simp [tier2code, tier2_rule, pyIndex, h1, h2, Bind.bind, Except.bind,
        Pure.pure, Except.pure]

lemma single_cmp_55 (mag : PFloat) :
    (if npLe mag (.val 5) then (⟨true, true⟩ : Res2) else ⟨false, false⟩) =
      tier2_rule mag 5 5 := by
  cases h : npLe mag (.val 5) <;> simp [tier2_rule, h]

lemma tier3_rule_nan (a b c : ℚ) : tier3_rule .nan a b c = ⟨false, false, false⟩ := by
  simp [tier3_rule]

lemma tier2_rule_nan (a b : ℚ) : tier2_rule .nan a b = ⟨false, false⟩ := by
  simp [tier2_rule]

lemma matisse_limit_realizable (t : MTable) (ht : realizable t)
    (mL mM mN mK : PFloat) :
    matisse_limit mL mM mN mK t = .ok (ruleDic mL mM mN mK t) := by
  rcases ht with hs | rfl
  · obtain ⟨hanL, hanM, hanN, hafL, hafM, hafN, hunL, hunM, hunN,
      hufL, hufM, hufN⟩ := hs
    obtain ⟨p1, p2, p3, hp⟩ := List.length_eq_three.mp hanL
    obtain ⟨q1, q2, hq⟩ := List.length_eq_two.mp hanM
    obtain ⟨r1, r2, hr⟩ := List.length_eq_two.mp hanN
    obtain ⟨s1, s2, s3, hsf⟩ := List.length_eq_three.mp hafL
    obtain ⟨u1, u2, hu⟩ := List.length_eq_two.mp hafM
    obtain ⟨v1, v2, v3, hv⟩ := List.length_eq_three.mp hunL
    obtain ⟨w1, w2, hw⟩ := List.length_eq_two.mp hunM
    obtain ⟨x1, x2, hx⟩ := List.length_eq_two.mp hunN
    simp [matisse_limit, matisse_slot_ut_ft_L, matisse_slot_ut_ft_M,
      matisse_slot_ut_ft_N, matisse_slot_ut_noft_L, matisse_slot_ut_noft_M,
      matisse_slot_ut_noft_N, matisse_slot_at_ft_L, matisse_slot_at_ft_M,
      matisse_slot_at_ft_N, matisse_slot_at_noft_L, matisse_slot_at_noft_M,
      matisse_slot_at_noft_N, ruleDic, effSlot, effList,
      hp, hq, hr, hsf, hu, hv, hw, hx, hafN, hufL, hufM, hufN,
      tier3code_triple, tier2code_pair, limit_commissioning_matisse,
      pyIndex, single_cmp_55, Bind.bind, Except.bind, Pure.pure, Except.pure]
    cases h5 : npLe mM (PFloat.val 5) <;> simp [h5, tier2_rule]
  · simp [matisse_limit, matisse_slot_ut_ft_L, matisse_slot_ut_ft_M,
      matisse_slot_ut_ft_N, matisse_slot_ut_noft_L, matisse_slot_ut_noft_M,
      matisse_slot_ut_noft_N, matisse_slot_at_ft_L, matisse_slot_at_ft_M,
      matisse_slot_at_ft_N, matisse_slot_at_noft_L, matisse_slot_at_noft_M,
      matisse_slot_at_noft_N, ruleDic, effSlot, effList,
      tier3code_triple, tier2code_pair, limit_commissioning_matisse,
      pyIndex, single_cmp_55, Bind.bind, Except.bind, Pure.pure, Except.pure]
    cases h5 : npLe mM (PFloat.val 5) <;> simp [h5, tier2_rule]

lemma matisse_limit_spec_realizable (t : MTable) (ht : realizable t)
    (mL mM mN mK : PFloat) :
    matisse_limit_spec mL mM mN mK t = .ok (ruleDic mL mM mN mK t) := by
  rcases ht with hs | rfl
  · obtain ⟨hanL, hanM, hanN, hafL, hafM, hafN, hunL, hunM, hunN,
      hufL, hufM, hufN⟩ := hs
    obtain ⟨p1, p2, p3, hp⟩ := List.length_eq_three.mp hanL
    obtain ⟨q1, q2, hq⟩ := List.length_eq_two.mp hanM
    obtain ⟨r1, r2, hr⟩ := List.length_eq_two.mp hanN
    obtain ⟨s1, s2, s3, hsf⟩ := List.length_eq_three.mp hafL
    obtain ⟨u1, u2, hu⟩ := List.length_eq_two.mp hafM
    obtain ⟨v1, v2, v3, hv⟩ := List.length_eq_three.mp hunL
    obtain ⟨w1, w2, hw⟩ := List.length_eq_two.mp hunM
    obtain ⟨x1, x2, hx⟩ := List.length_eq_two.mp hunN
    simp [matisse_limit_spec, ruleDic, effSlot, effList,
      hp, hq, hr, hsf, hu, hv, hw, hx, hafN, hufL, hufM, hufN,
      tier3code_triple, tier2code_pair, limit_commissioning_matisse,
      pyIndex, Bind.bind, Except.bind, Pure.pure, Except.pure]
  · simp [matisse_limit_spec, ruleDic, effSlot, effList,
      tier3code_triple, tier2code_pair, limit_commissioning_matisse,
      pyIndex, Bind.bind, Except.bind, Pure.pure, Except.pure]

lemma condApp_mem (c : Bool) (l : List String) (s x : String) :
    x ∈ condApp c l s ↔ x ∈ l ∨ (c = true ∧ x = s) := by
  cases c <;> simp [condApp]

lemma bucket_cond_iff (r : SurveyRecord) (ins : InsTree) (b : Bucket) :
    bucket_cond r ins b = true ↔ bucket_claim r ins b := by
  cases b with
  | vega res => cases res <;>
      simp [bucket_cond, bucket_claim, Bool.and_eq_true, and_assoc]
  | _ => simp [bucket_cond, bucket_claim, Bool.and_eq_true, and_assoc]

lemma count_fold_mem (l : List (String × SurveyRecord)) :
    ∀ (acc res : (Bucket → List String) × List String),
      count_fold l acc = .ok res →
      ∀ (b : Bucket) (x : String),
        x ∈ res.1 b ↔ x ∈ acc.1 b ∨
          ∃ r ins, (x, r) ∈ l ∧ r.Simbad = true ∧ r.Ins = some ins ∧
            bucket_cond r ins b = true := by
  induction l with
  | nil =>
      intro acc res h b x
      simp only [count_fold] at h
      cases h
      simp
  | cons p rest ih =>
      intro acc res h b x
      obtain ⟨s, r⟩ := p
      by_cases hs : r.Simbad = true
      · cases hins : r.Ins with
        | none =>
            simp only [count_fold, count_step, if_pos hs, hins, Except.bind] at h
            cases h
        | some ins =>
            simp only [count_fold, count_step, if_pos hs, hins, Except.bind] at h
            rw [ih _ _ h b x, condApp_mem]
            constructor
            · rintro ((hx | ⟨hc, rfl⟩) | ⟨r2, ins2, hmem, h1, h2, h3⟩)
              · exact Or.inl hx
              · exact Or.inr ⟨r, ins, List.mem_cons_self _ _, hs, hins, hc⟩
              · exact Or.inr ⟨r2, ins2, List.mem_cons_of_mem _ hmem, h1, h2, h3⟩
            · rintro (hx | ⟨r2, ins2, hmem, h1, h2, h3⟩)
              · exact Or.inl (Or.inl hx)
              · rcases List.mem_cons.mp hmem with heq | hmem2
                · injection heq with hx1 hx2
                  subst hx1
                  subst hx2
                  rw [hins] at h2
                  injection h2 with h2
                  subst h2
                  exact Or.inl (Or.inr ⟨h3, rfl⟩)
                · exact Or.inr ⟨r2, ins2, hmem2, h1, h2, h3⟩
      · simp only [count_fold, count_step, if_neg hs, Except.bind] at h
        rw [ih _ _ h b x]
        constructor
        · rintro (hx | ⟨r2, ins2, hmem, h1, h2, h3⟩)
          · exact Or.inl hx
          · exact Or.inr ⟨r2, ins2, List.mem_cons_of_mem _ hmem, h1, h2, h3⟩
        · rintro (hx | ⟨r2, ins2, hmem, h1, h2, h3⟩)
          · exact Or.inl hx
          · rcases List.mem_cons.mp hmem with heq | hmem2
            · injection heq with hx1 hx2
              subst hx2
              exact absurd h1 hs
            · exact Or.inr ⟨r2, ins2, hmem2, h1, h2, h3⟩

lemma survey_counts_spec (l : List (String × SurveyRecord)) :
    survey_counts l =
      ((l.filter fun p => p.2.Simbad && p.2.SED.isSome && p.2.Obs_VLTI).length,
       (l.filter fun p => p.2.Simbad && p.2.SED.isSome && p.2.Obs_CHARA).length) := by
  have aux : ∀ (l : List (String × SurveyRecord)) (a b : ℕ),
      List.foldl count_incr (a, b) l =
        (a + (l.filter fun p => p.2.Simbad && p.2.SED.isSome && p.2.Obs_VLTI).length,
         b + (l.filter fun p => p.2.Simbad && p.2.SED.isSome && p.2.Obs_CHARA).length) := by
    intro l
    induction l with
    | nil => intro a b; simp
    | cons p rest ih =>
        intro a b
        simp only [List.foldl_cons, List.filter_cons, count_incr]
        by_cases h1 : p.2.Simbad = true
        · by_cases h2 : p.2.SED.isSome = true
          · by_cases h3 : p.2.Obs_VLTI = true <;> by_cases h4 : p.2.Obs_CHARA = true <;>
              simp [h1, h2, h3, h4, ih] <;> omega
          · simp [h1, h2, ih]
        · simp [h1, ih]
  rw [survey_counts, aux]
  simp

/- ------------------------------------------------------------------
Claim theorems.
------------------------------------------------------------------ -/

/-- C1 (counterexample): in count_survey, a Simbad-matched star whose
guide-availability boolean is false (empty candidate-list pair) is
nevertheless added to the CLIMB bucket, because CHARA-suite buckets do not
consult guide availability — refuting the claim that every bucket requires
the guide-availability boolean. -/
theorem C1_counterexample :
    inBucket surveyA Bucket.climb "A" = true ∧
      guid_of recA.Guiding_star = false := by
  constructor <;> rfl

/-- C1 (amended): a star's name appears in a bucket of count_survey's count
dictionary iff the star is Simbad-matched with a populated Ins tree and: for
VLTI-suite buckets (MATISSE, GRAVITY, PIONIER) the VLTI site flag, the
guide-availability boolean and the instrument leaf all hold; for CHARA-suite
buckets the CHARA site flag, the instrument leaf and the tip-tilt Guiding
flag all hold (guide availability is not consulted); VEGA's MR bucket is
never populated. -/
theorem C1_amended :
    ∀ (survey : List (String × SurveyRecord)) (sum : CountSummary)
      (dic : Bucket → List String) (ns : List String),
      count_survey survey = .ok (sum, dic, ns) →
      ∀ (b : Bucket) (x : String),
        x ∈ dic b ↔ ∃ r ins, (x, r) ∈ survey ∧ r.Simbad = true ∧
          r.Ins = some ins ∧ bucket_claim r ins b := by
  intro survey sum dic ns h b x
  simp only [count_survey, Bind.bind, Except.bind] at h
  cases hsum : survey_summary survey with
  | error e => rw [hsum] at h; cases h
  | ok s0 =>
      rw [hsum] at h
      cases hfold : count_fold survey (fun _ => [], []) with
      | error e => rw [hfold] at h; cases h
      | ok pr =>
          obtain ⟨d0, n0⟩ := pr
          rw [hfold] at h
          simp only [Pure.pure, Except.pure] at h
          injection h with h
          injection h with ha hb
          injection hb with hb1 hb2
          subst ha
          subst hb1
          subst hb2
          have hm := count_fold_mem survey _ _ hfold b x
          simpa [bucket_cond_iff] using hm

/-- C1 (witness): on a concrete one-star survey, count_survey succeeds and
the star appears in the PIONIER bucket exactly per the amended rule. -/
theorem C1_witness :
    ∃ p : CountSummary × (Bucket → List String) × List String,
      count_survey surveyW = .ok p ∧ "W" ∈ p.2.1 Bucket.pionier := by
  obtain ⟨a, d, c, h⟩ : ∃ a d c, count_survey surveyW = .ok (a, d, c) :=
    ⟨_, _, _, rfl⟩
  exact ⟨(a, d, c), h,
    (C1_amended surveyW a d c h Bucket.pionier "W").mpr
      ⟨recW, insW, by simp [surveyW], rfl, rfl, rfl, rfl, rfl⟩⟩

/-- C2 (counterexample): the reverse magnitude-to-flux conversion raises a
KeyError on an unknown band name instead of returning NaN. -/
theorem C2_counterexample :
    MagToJy (.val 5) "Z" true = .error .keyError := rfl

lemma conv_flux_pos (band : String) (p : ℚ × ℚ) (h : conv_flux band = some p) :
    0 < p.2 := by
  unfold conv_flux at h
  split_ifs at h <;> cases h <;> norm_num

/-- C2 (amended): the forward conversion never raises and yields NaN on an
unknown band (the bare try/except); the reverse conversion raises KeyError on
an unknown band, and on a known band yields NaN for negative or NaN input
without raising. -/
theorem C2_amended :
    (∀ (m : RFloat) (band : String), conv_flux band = none →
        MagToJy m band false = .ok .nan) ∧
    (∀ (m : RFloat) (band : String), ∃ v, MagToJy m band false = .ok v) ∧
    (∀ (m : RFloat) (band : String), conv_flux band = none →
        MagToJy m band true = .error .keyError) ∧
    (∀ (band : String) (p : ℚ × ℚ), conv_flux band = some p →
        (∀ x : ℝ, x < 0 → MagToJy (.val x) band true = .ok .nan) ∧
        MagToJy .nan band true = .ok .nan) := by
  refine ⟨?_, ?_, ?_, ?_⟩
  · intro m band h
    simp [MagToJy, h]
  · intro m band
    cases h : conv_flux band with
    | none => exact ⟨.nan, by simp [MagToJy, h]⟩
    | some p =>
        exact ⟨rfMul (.val ((p.2 : ℚ) : ℝ))
          (rfPow10 (rfDiv m (.val (-(5 : ℝ)/2)))), by simp [MagToJy, h]⟩
  · intro m band h
    simp [MagToJy, h]
  · intro band p h
    have hpos : 0 < p.2 := conv_flux_pos band p h
    have hF : (0 : ℝ) < (p.2 : ℝ) := by exact_mod_cast hpos
    have hFne : ((p.2 : ℝ)) ≠ 0 := ne_of_gt hF
    constructor
    · intro x hx
      have hneg : x / (p.2 : ℝ) < 0 := div_neg_of_neg_of_pos hx hF
      simp [MagToJy, h, rfDiv, hFne, rfLog10, hneg, rfMul]
    · simp [MagToJy, h, rfDiv, rfLog10, rfMul]

/-- C2 (witness): concrete instances — forward conversion of an unknown band
yields NaN, and reverse conversion of a negative flux in band K yields
NaN. -/
theorem C2_witness :
    MagToJy (.val 0) "Zz" false = .ok .nan ∧
      MagToJy (.val (-1)) "K" true = .ok .nan :=
  ⟨C2_amended.1 (.val 0) "Zz" rfl,
   (C2_amended.2.2.2 "K" (2179/1000, 655) rfl).1 (-1) (by norm_num)⟩

/-- C3: on every table the providers can supply, matisse_limit equals the
spec's evaluation (chosen list with empty-slot fallback to the commissioning
table, per-band tier rules); and substituting the commissioning AT/ft/N list
[1.6, 0.1] for an empty AT/ft/N list leaves the result unchanged. -/
theorem C3_thm :
    (∀ t, realizable t → ∀ mL mM mN mK : PFloat,
        matisse_limit mL mM mN mK t = matisse_limit_spec mL mM mN mK t) ∧
    (∀ (t : MTable) (mL mM mN mK : PFloat),
        matisse_limit mL mM mN mK { t with at_ft_N := [] } =
          matisse_limit mL mM mN mK { t with at_ft_N := [8/5, 1/10] }) := by
  constructor
  · intro t ht mL mM mN mK
    rw [matisse_limit_realizable t ht, matisse_limit_spec_realizable t ht]
  · intro t mL mM mN mK
    rfl

/-- C3 (witness): code and spec evaluation agree at a concrete input on the
commissioning table. -/
theorem C3_witness :
    matisse_limit (.val 3) (.val 3) (.val 0) (.val 5)
        limit_commissioning_matisse =
      matisse_limit_spec (.val 3) (.val 3) (.val 0) (.val 5)
        limit_commissioning_matisse :=
  C3_thm.1 limit_commissioning_matisse (Or.inr rfl) _ _ _ _

/-- C4: on every realizable table, matisse_limit succeeds and each of the
four telescope × fringe-tracking M-band results follows the spec's 2-tier
rule over that configuration's effective breakpoint list [b0, b1]. -/
theorem C4_thm :
    ∀ t, realizable t → ∀ mL mM mN mK : PFloat, ∃ d,
      matisse_limit mL mM mN mK t = .ok d ∧
      d.UT_ft_M = tier2_rule mM ((effSlot t (fun x => x.ut_ft_M)).getD 0 0)
          ((effSlot t (fun x => x.ut_ft_M)).getD 1 0) ∧
      d.UT_noft_M = tier2_rule mM ((effSlot t (fun x => x.ut_noft_M)).getD 0 0)
          ((effSlot t (fun x => x.ut_noft_M)).getD 1 0) ∧
      d.AT_ft_M = tier2_rule mM ((effSlot t (fun x => x.at_ft_M)).getD 0 0)
          ((effSlot t (fun x => x.at_ft_M)).getD 1 0) ∧
      d.AT_noft_M = tier2_rule mM ((effSlot t (fun x => x.at_noft_M)).getD 0 0)
          ((effSlot t (fun x => x.at_noft_M)).getD 1 0) := by
  intro t ht mL mM mN mK
  exact ⟨_, matisse_limit_realizable t ht mL mM mN mK, rfl, rfl, rfl, rfl⟩

/-- C4 (witness): instance at the commissioning table and concrete
magnitudes. -/
theorem C4_witness :
    ∃ d, matisse_limit (.val 3) (.val 3) (.val 0) (.val 5)
          limit_commissioning_matisse = .ok d ∧
      d.UT_ft_M = tier2_rule (.val 3)
          ((effSlot limit_commissioning_matisse (fun x => x.ut_ft_M)).getD 0 0)
          ((effSlot limit_commissioning_matisse (fun x => x.ut_ft_M)).getD 1 0) ∧
      d.UT_noft_M = tier2_rule (.val 3)
          ((effSlot limit_commissioning_matisse (fun x => x.ut_noft_M)).getD 0 0)
          ((effSlot limit_commissioning_matisse (fun x => x.ut_noft_M)).getD 1 0) ∧
      d.AT_ft_M = tier2_rule (.val 3)
          ((effSlot limit_commissioning_matisse (fun x => x.at_ft_M)).getD 0 0)
          ((effSlot limit_commissioning_matisse (fun x => x.at_ft_M)).getD 1 0) ∧
      d.AT_noft_M = tier2_rule (.val 3)
          ((effSlot limit_commissioning_matisse (fun x => x.at_noft_M)).getD 0 0)
          ((effSlot limit_commissioning_matisse (fun x => x.at_noft_M)).getD 1 0) :=
  C4_thm limit_commissioning_matisse (Or.inr rfl) (.val 3) (.val 3) (.val 0) (.val 5)

/-- C5 (counterexample): at magK exactly -4 the code takes the
`magK >= -4 and magK <= -1` branch, so AT-HR is true — refuting the claim
that magK ≤ -4 gives all four false flags. -/
theorem C5_counterexample :
    (gravity_limit (.val 0) (.val (-4))).AT_K_HR = true := by decide

/-- C5 (amended): for magK strictly below -4, or above 9, gravity_limit
returns false for all four K-band observability flags. -/
theorem C5_amended :
    ∀ (magV : PFloat) (q : ℚ), q < -4 ∨ 9 < q →
      (gravity_limit magV (.val q)).UT_K_MR = false ∧
      (gravity_limit magV (.val q)).UT_K_HR = false ∧
      (gravity_limit magV (.val q)).AT_K_MR = false ∧
      (gravity_limit magV (.val q)).AT_K_HR = false := by
  intro magV q hq
  rcases hq with h | h
  · have e1 : decide ((-4 : ℚ) ≤ q) = false := decide_eq_false (by linarith)
    have e2 : decide ((-1 : ℚ) < q) = false := decide_eq_false (by linarith)
    have e3 : decide ((1 : ℚ) < q) = false := decide_eq_false (by linarith)
    have e4 : decide ((4 : ℚ) < q) = false := decide_eq_false (by linarith)
    have e5 : decide ((8 : ℚ) < q) = false := decide_eq_false (by linarith)
    simp [gravity_limit, npLe, npLt, e1, e2, e3, e4, e5]
  · have e1 : decide (q ≤ (-1 : ℚ)) = false := decide_eq_false (by linarith)
    have e2 : decide (q ≤ (1 : ℚ)) = false := decide_eq_false (by linarith)
    have e3 : decide (q ≤ (4 : ℚ)) = false := decide_eq_false (by linarith)
    have e4 : decide (q ≤ (8 : ℚ)) = false := decide_eq_false (by linarith)
    have e5 : decide (q ≤ (9 : ℚ)) = false := decide_eq_false (by linarith)
    simp [gravity_limit, npLe, npLt, e1, e2, e3, e4, e5]

/-- C5 (witness): instance at magK = -5. -/
theorem C5_witness :
    (gravity_limit (.val 0) (.val (-5))).UT_K_MR = false ∧
    (gravity_limit (.val 0) (.val (-5))).UT_K_HR = false ∧
    (gravity_limit (.val 0) (.val (-5))).AT_K_MR = false ∧
    (gravity_limit (.val 0) (.val (-5))).AT_K_HR = false :=
  C5_amended (.val 0) (-5) (Or.inl (by norm_num))

/-- C6: on a Simbad-matched star whose Guiding_star is a pair of plain
candidate lists with a non-empty first list, plot_VLTI raises TypeError
while evaluating `len(data['Guiding_star'][0] > 0)` (comparing a list with
an integer) instead of classifying the star as "Off axis". -/
theorem C6_thm : plot_VLTI recC = .error .typeError := rfl

/-- C7: threshold functions are total: matisse_limit succeeds on every
realizable table for all magnitudes including NaN, and a NaN magnitude
forces the leaves that depend on it to false in matisse_limit,
gravity_limit, pionier_limit and chara_limit; boundary comparisons are
inclusive (`<=` holds at the breakpoint itself, and PIONIER's H leaf is the
inclusive conjunction -1 ≤ magH ≤ 9). -/
theorem C7_thm :
    (∀ t, realizable t → ∀ mL mM mN mK : PFloat, ∃ d,
        matisse_limit mL mM mN mK t = .ok d) ∧
    (∀ t, realizable t → ∀ mM mN mK : PFloat, ∃ d,
        matisse_limit .nan mM mN mK t = .ok d ∧
        d.UT_ft_L = ⟨false, false, false⟩ ∧ d.UT_noft_L = ⟨false, false, false⟩ ∧
        d.AT_ft_L = ⟨false, false, false⟩ ∧ d.AT_noft_L = ⟨false, false, false⟩) ∧
    (∀ t, realizable t → ∀ mL mN mK : PFloat, ∃ d,
        matisse_limit mL .nan mN mK t = .ok d ∧
        d.UT_ft_M = ⟨false, false⟩ ∧ d.UT_noft_M = ⟨false, false⟩ ∧
        d.AT_ft_M = ⟨false, false⟩ ∧ d.AT_noft_M = ⟨false, false⟩) ∧
    (∀ t, realizable t → ∀ mL mM mK : PFloat, ∃ d,
        matisse_limit mL mM .nan mK t = .ok d ∧
        d.UT_ft_N = ⟨false, false⟩ ∧ d.UT_noft_N = ⟨false, false⟩ ∧
        d.AT_ft_N = ⟨false, false⟩ ∧ d.AT_noft_N = ⟨false, false⟩) ∧
    (∀ t, realizable t → ∀ mL mM mN : PFloat, ∃ d,
        matisse_limit mL mM mN .nan t = .ok d ∧
        d.limK_UT = false ∧ d.limK_AT = false) ∧
    (∀ mV : PFloat, (gravity_limit mV .nan).UT_K_MR = false ∧
        (gravity_limit mV .nan).UT_K_HR = false ∧
        (gravity_limit mV .nan).AT_K_MR = false ∧
        (gravity_limit mV .nan).AT_K_HR = false) ∧
    (∀ mV : PFloat, (pionier_limit .nan mV).H = false) ∧
    (∀ mH mR mV : PFloat, (chara_limit .nan mH mR mV).CLASSIC_K = false ∧
        (chara_limit .nan mH mR mV).CLIMB_K = false ∧
        (chara_limit .nan mH mR mV).MIRC_K = false ∧
        (chara_limit .nan mH mR mV).MYSTIC_K = false) ∧
    (∀ mK mR mV : PFloat, (chara_limit mK .nan mR mV).CLASSIC_H = false ∧
        (chara_limit mK .nan mR mV).MIRC_H = false) ∧
    (∀ mK mH mV : PFloat, (chara_limit mK mH .nan mV).PAVO_R = false ∧
        (chara_limit mK mH .nan mV).Guiding = false) ∧
    (∀ mK mH mR : PFloat, (chara_limit mK mH mR .nan).CLASSIC_V = false ∧
        (chara_limit mK mH mR .nan).VEGA_LR = false ∧
        (chara_limit mK mH mR .nan).VEGA_MR = false ∧
        (chara_limit mK mH mR .nan).VEGA_HR = false ∧
        (chara_limit mK mH mR .nan).Guiding = false) ∧
    (∀ q : ℚ, npLe (.val q) (.val q) = true) ∧
    (∀ (mV : PFloat) (q : ℚ),
        (pionier_limit (.val q) mV).H = (decide ((-1 : ℚ) ≤ q) && decide (q ≤ 9))) := by
  refine ⟨?_, ?_, ?_, ?_, ?_, ?_, ?_, ?_, ?_, ?_, ?_, ?_, ?_⟩
  · intro t ht mL mM mN mK
    exact ⟨_, matisse_limit_realizable t ht mL mM mN mK⟩
  · intro t ht mM mN mK
    exact ⟨_, matisse_limit_realizable t ht .nan mM mN mK,
      by simp [ruleDic, tier3_rule_nan], by simp [ruleDic, tier3_rule_nan],
      by simp [ruleDic, tier3_rule_nan], by simp [ruleDic, tier3_rule_nan]⟩
  · intro t ht mL mN mK
    exact ⟨_, matisse_limit_realizable t ht mL .nan mN mK,
      by simp [ruleDic, tier2_rule_nan], by simp [ruleDic, tier2_rule_nan],
      by simp [ruleDic, tier2_rule_nan], by simp [ruleDic, tier2_rule_nan]⟩
  · intro t ht mL mM mK
    exact ⟨_, matisse_limit_realizable t ht mL mM .nan mK,
      by simp [ruleDic, tier2_rule_nan], by simp [ruleDic, tier2_rule_nan],
      by simp [ruleDic, tier2_rule_nan], by simp [ruleDic, tier2_rule_nan]⟩
  · intro t ht mL mM mN
    exact ⟨_, matisse_limit_realizable t ht mL mM mN .nan,
      by simp [ruleDic], by simp [ruleDic]⟩
  · intro mV
    refine ⟨?_, ?_, ?_, ?_⟩ <;> simp [gravity_limit]
  · intro mV
    rfl
  · intro mH mR mV
    refine ⟨?_, ?_, ?_, ?_⟩ <;> simp [chara_limit]
  · intro mK mR mV
    exact ⟨by simp [chara_limit], by simp [chara_limit]⟩
  · intro mK mH mV
    exact ⟨by simp [chara_limit], by simp [chara_limit]⟩
  · intro mK mH mR
    refine ⟨?_, ?_, ?_, ?_, ?_⟩ <;> simp [chara_limit]
  · intro q
    simp [npLe]
  · intro mV q
    rfl

/-- C7 (witness): matisse_limit succeeds on the commissioning table with all
magnitudes NaN, and pionier_limit is false at NaN. -/
theorem C7_witness :
    (∃ d, matisse_limit .nan .nan .nan .nan limit_commissioning_matisse = .ok d) ∧
      (pionier_limit .nan (.val 0)).H = false :=
  ⟨C7_thm.1 limit_commissioning_matisse (Or.inr rfl) .nan .nan .nan .nan,
   C7_thm.2.2.2.2.2.2.1 (.val 0)⟩

/-- C8: plot_VLTI on a star whose Ins field is absent prints the identifying
error line naming the star, returns no figure and raises no exception. -/
theorem C8_thm :
    ∀ data : SurveyRecord, data.Ins = none →
      plot_VLTI data =
        .ok (["## Error: " ++ data.Name ++ " not in Simbad!"], none) := by
  intro d h
  simp [plot_VLTI, h]

/-- C8 (witness): instance on a concrete unmatched star. -/
theorem C8_witness :
    plot_VLTI recB = .ok (["## Error: " ++ "B" ++ " not in Simbad!"], none) :=
  C8_thm recB rfl

/-- C9: for every band of the flux-conversion table and every real
magnitude, converting to flux with MagToJy and back with the reverse
conversion returns the original magnitude exactly (over exact reals). -/
theorem C9_thm :
    ∀ (band : String) (p : ℚ × ℚ), conv_flux band = some p →
      ∀ m : ℝ, ∃ f : ℝ,
        MagToJy (.val m) band false = .ok (.val f) ∧
        MagToJy (.val f) band true = .ok (.val m) := by
  intro band p h m
  have hpos : 0 < p.2 := conv_flux_pos band p h
  have hF : (0 : ℝ) < (p.2 : ℝ) := by exact_mod_cast hpos
  have hFne : ((p.2 : ℝ)) ≠ 0 := ne_of_gt hF
  have hcne : (-(5 : ℝ)/2) ≠ 0 := by norm_num
  have hpow : (0 : ℝ) < (10 : ℝ) ^ (m / (-(5 : ℝ)/2)) :=
    Real.rpow_pos_of_pos (by norm_num) _
  refine ⟨(p.2 : ℝ) * (10 : ℝ) ^ (m / (-(5 : ℝ)/2)), ?_, ?_⟩
  · simp [MagToJy, h, rfDiv, hcne, rfPow10, rfMul]
  · have harg : (p.2 : ℝ) * (10 : ℝ) ^ (m / (-(5 : ℝ)/2)) / (p.2 : ℝ) =
        (10 : ℝ) ^ (m / (-(5 : ℝ)/2)) := by
      field_simp
    have hdiv : rfDiv (.val ((p.2 : ℝ) * (10 : ℝ) ^ (m / (-(5 : ℝ)/2))))
        (.val ((p.2 : ℚ) : ℝ)) = .val ((10 : ℝ) ^ (m / (-(5 : ℝ)/2))) := by
      simp [rfDiv, hFne, harg]
    have hlog : rfLog10 (.val ((10 : ℝ) ^ (m / (-(5 : ℝ)/2)))) =
        .val (m / (-(5 : ℝ)/2)) := by
      simp only [rfLog10]
      rw [if_neg (not_lt.mpr hpow.le), if_neg (ne_of_gt hpow),
        Real.logb_rpow (by norm_num) (by norm_num)]
    have hmul : rfMul (.val (-(5 : ℝ)/2)) (.val (m / (-(5 : ℝ)/2))) =
        .val m := by
      simp only [rfMul]
      rw [mul_comm, div_mul_cancel₀ _ hcne]
    simp only [MagToJy, h, Bool.not_true, Bool.false_eq_true, if_false]
    rw [hdiv, hlog, hmul]

/-- C9 (witness): round trip at band K and magnitude 5. -/
theorem C9_witness :
    ∃ f : ℝ, MagToJy (.val 5) "K" false = .ok (.val f) ∧
      MagToJy (.val f) "K" true = .ok (.val 5) :=
  C9_thm "K" (2179/1000, 655) rfl 5

/-- C10: count_survey on the empty survey raises ZeroDivisionError while
computing the percentages; on every non-empty survey the printed summary has
each site percentage equal to 100 times the count of Simbad-matched,
SED-present, site-observable stars divided by the total star count. -/
theorem C10_thm :
    count_survey ([] : List (String × SurveyRecord)) =
        .error .zeroDivisionError ∧
    ∀ survey : List (String × SurveyRecord), survey ≠ [] →
      survey_summary survey = .ok
        { n_star := survey.length
          n_vlti := (survey.filter fun p =>
            p.2.Simbad && p.2.SED.isSome && p.2.Obs_VLTI).length
          n_chara := (survey.filter fun p =>
            p.2.Simbad && p.2.SED.isSome && p.2.Obs_CHARA).length
          pct_vlti := 100 * ((survey.filter fun p =>
            p.2.Simbad && p.2.SED.isSome && p.2.Obs_VLTI).length : ℚ) /
              (survey.length : ℚ)
          pct_chara := 100 * ((survey.filter fun p =>
            p.2.Simbad && p.2.SED.isSome && p.2.Obs_CHARA).length : ℚ) /
              (survey.length : ℚ) } := by
  constructor
  · rfl
  · intro survey hne
    have hlen : survey.length ≠ 0 := by
      have := List.length_pos.mpr hne
      omega
    simp [survey_summary, survey_counts_spec, pyDiv, hlen,
      Bind.bind, Except.bind, Pure.pure, Except.pure]

/-- C10 (witness): summary on a concrete one-star survey. -/
theorem C10_witness :
    survey_summary surveyA = .ok
      { n_star := surveyA.length
        n_vlti := (surveyA.filter fun p =>
          p.2.Simbad && p.2.SED.isSome && p.2.Obs_VLTI).length
        n_chara := (surveyA.filter fun p =>
          p.2.Simbad && p.2.SED.isSome && p.2.Obs_CHARA).length
        pct_vlti := 100 * ((surveyA.filter fun p =>
          p.2.Simbad && p.2.SED.isSome && p.2.Obs_VLTI).length : ℚ) /
            (surveyA.length : ℚ)
        pct_chara := 100 * ((surveyA.filter fun p =>
          p.2.Simbad && p.2.SED.isSome && p.2.Obs_CHARA).length : ℚ) /
            (surveyA.length : ℚ) } :=
  C10_thm.2 surveyA (by simp [surveyA])

end Previs
